import Mathlib

/-!
Verification of the 88code reset engine against its specification.

Shallow embedding of the Go sources:
- `internal/reset/reset.go` (eligibility filter, threshold / reset-count
  pre-flight checks, the two-attempt retry/verify loop of
  `processSubscription`);
- `internal/api/client.go` (the PAYGO pre-call guard of `ResetCredits`);
- `internal/storage/storage.go` (`LoadStatus` day rollover, `AcquireLock`);
- `internal/scheduler/scheduler.go` / `multi_scheduler.go` (the pre-executor
  gate of `executeReset` and `executeResetForAccount`).

Conventions of the embedding:
- Go `float64` credit amounts are modelled as `ℚ`; every use in the engine is
  arithmetic comparison on small decimal values, never rounding-sensitive.
- Go `time.Time` is modelled as `Int` nanoseconds since an arbitrary epoch;
  `time.Since t` at instant `now` is `now - t`; `*time.Time` is `Option Int`.
- Remote I/O (`client.ResetCredits`, re-fetch of a subscription) is modelled
  by oracle values of type `AttemptOutcome` handed to `processSubscription`,
  one per attempt; file I/O of the storage layer is modelled by explicit
  `LockContents` / status values.  `fetcher.current` at entry of
  `processSubscription` returns the same snapshot the subscription list
  already provided, so it is the identity here.
- Go formatted error / skip-reason strings are modelled by inductive
  constructors carrying the same data the format verbs would print; distinct
  format strings map to distinct constructors.
- `strings.EqualFold` on the ASCII identifiers used by the engine is modelled
  as equality of lower-casings.
-/

/-- `models.SubscriptionPlan` (internal/models): the fields the engine reads. -/
structure SubscriptionPlan where
  subscriptionName : String
  planType : String
  creditLimit : ℚ
deriving DecidableEq, Repr

/-- `models.Subscription` (internal/models): the fields the engine reads. -/
structure Subscription where
  id : Int
  subscriptionName : String
  currentCredits : ℚ
  resetTimes : Int
  plan : SubscriptionPlan
deriving DecidableEq, Repr

/-- `models.ResetResponse` as constructed by `Client.ResetCredits`. -/
structure ResetResponse where
  success : Bool
  message : String
deriving DecidableEq, Repr

/-- `reset.Filter`: user-selected plan names; empty means all MONTHLY.
Named `ResetFilter` here because Mathlib already owns the name `Filter`. -/
structure ResetFilter where
  targetPlans : List String
  requireMonthly : Bool
deriving DecidableEq, Repr

/-- `reset.Options`: trigger kind and threshold configuration.  The
`SleepBetween` settle delay only pauses the wall clock and is omitted. -/
structure Options where
  resetType : String
  useMaxThreshold : Bool
  creditThresholdMax : ℚ
  creditThresholdMin : ℚ
deriving DecidableEq, Repr

/-- `strings.ToLower` on the ASCII identifiers the engine handles, written
on the character list so that it evaluates by structural recursion. -/
def asciiLower (s : String) : String :=
  String.mk (s.data.map Char.toLower)

/-- `strings.ToUpper` on the ASCII identifiers the engine handles. -/
def asciiUpper (s : String) : String :=
  String.mk (s.data.map Char.toUpper)

/-- `strings.TrimSpace`: drop whitespace from both ends. -/
def trimSpace (s : String) : String :=
  String.mk
    (((s.data.dropWhile fun c => c.isWhitespace).reverse.dropWhile
        fun c => c.isWhitespace).reverse)

/-- `strings.EqualFold` restricted to the ASCII identifiers the engine
compares (`"second"`, `"PAYGO"`): case-insensitive equality. -/
def eqFold (a b : String) : Bool :=
  decide (asciiLower a = asciiLower b)

/-- `reset.isPAYGO` (reset.go:319-328): case-insensitive match of the
subscription name, the plan's subscription name, or the trimmed upper-cased
plan type against the pay-per-use markers. -/
def isPAYGO (sub : Subscription) : Bool :=
  eqFold sub.subscriptionName "PAYGO" ||
  eqFold sub.plan.subscriptionName "PAYGO" ||
  (let planType := asciiUpper (trimSpace sub.plan.planType)
   decide (planType = "PAYGO") || decide (planType = "PAY_PER_USE"))

/-- The target-name set built at the top of `reset.FilterSubscriptions`
(reset.go:95-100): lower-case, trim, drop empties. -/
def buildTargetNames (plans : List String) : List String :=
  (plans.map fun n => trimSpace (asciiLower n)).filter fun t => decide (t ≠ "")

/-- The per-subscription keep decision inside the loop of
`reset.FilterSubscriptions` (reset.go:103-125): monthly requirement, the
non-overridable PAYGO exclusion, then the allow-list. -/
def keepSubscription (filter : ResetFilter) (targetNames : List String)
    (sub : Subscription) : Bool :=
  (if filter.requireMonthly then
     let planType := asciiUpper (trimSpace sub.plan.planType)
     !(decide (planType ≠ "") && decide (planType ≠ "MONTHLY"))
   else true) &&
  !(isPAYGO sub) &&
  (if targetNames = [] then true
   else
     let name := asciiLower (trimSpace sub.subscriptionName)
     let planName := asciiLower (trimSpace sub.plan.subscriptionName)
     decide (name ∈ targetNames) || decide (planName ∈ targetNames))

/-- `reset.FilterSubscriptions` (reset.go:90-128).  The Go early-returns nil
on an empty input; both branches produce the empty list. -/
def FilterSubscriptions (subs : List Subscription) (filter : ResetFilter) :
    List Subscription :=
  match subs with
  | [] => []
  | _ =>
    let targetNames := buildTargetNames filter.targetPlans
    subs.filter (keepSubscription filter targetNames)

/-- Skip reasons produced by the two pre-flight checks; each constructor
stands for one Go format string, carrying the values it would print. -/
inductive SkipReason where
  | thresholdMax (percent cap : ℚ)
  | thresholdMin (percent floor : ℚ)
  | insufficientResetTimes (minRequired : Int)
deriving DecidableEq, Repr

/-- `Runner.minRequiredResetTimes` (reset.go:312-317): 1 for trigger kind
`second` (compared with EqualFold), 2 otherwise. -/
def minRequiredResetTimes (opts : Options) : Int :=
  if eqFold opts.resetType "second" then 1 else 2

/-- `Runner.shouldSkipByThreshold` (reset.go:282-302).  No check when the
credit limit is non-positive; ceiling mode skips on percent strictly above
the cap, floor mode on percent at or above the floor.  The two sequential
`if` blocks of the Go have mutually exclusive guards, written here as a
chain. -/
def shouldSkipByThreshold (opts : Options) (sub : Subscription) :
    Option SkipReason :=
  if sub.plan.creditLimit ≤ 0 then none
  else
    let percent := sub.currentCredits / sub.plan.creditLimit * 100
    if opts.useMaxThreshold = true ∧ opts.creditThresholdMax > 0 ∧
        percent > opts.creditThresholdMax then
      some (SkipReason.thresholdMax percent opts.creditThresholdMax)
    else if opts.useMaxThreshold = false ∧ opts.creditThresholdMin > 0 ∧
        percent ≥ opts.creditThresholdMin then
      some (SkipReason.thresholdMin percent opts.creditThresholdMin)
    else none

/-- `Runner.shouldSkipByResetTimes` (reset.go:304-310). -/
def shouldSkipByResetTimes (opts : Options) (sub : Subscription) :
    Option SkipReason :=
  let minRequired := minRequiredResetTimes opts
  if sub.resetTimes < minRequired then
    some (SkipReason.insufficientResetTimes minRequired)
  else none

/-- Errors `processSubscription` can store in `Result.Err`; each constructor
stands for one Go error construction site. -/
inductive RunError where
  | resetCall (msg : String)
  | verifyFetch (id : Int) (msg : String)
  | notEligibleAfterReset (afterResets : Int)
  | unconfirmedAfterRetry (afterResets : Int) (afterCredits : ℚ)
deriving DecidableEq, Repr

/-- The remote interactions of one attempt of the retry loop: the outcome of
`client.ResetCredits` and of the verification re-fetch. -/
structure AttemptOutcome where
  resetCall : Except String ResetResponse
  verifyFetch : Except String Subscription
deriving Repr

/-- `reset.Result` (reset.go:14-26). -/
structure Result where
  subscription : Subscription
  resetResponse : Option ResetResponse
  skipped : Bool
  skipReason : Option SkipReason
  err : Option RunError
  beforeCredits : ℚ
  afterCredits : ℚ
  beforeResets : Int
  afterResets : Int
  updatedSubscription : Option Subscription
  attempts : Nat
deriving DecidableEq, Repr

/-- `Runner.processSubscription` (reset.go:130-223) with the remote calls of
its two possible attempts supplied as oracles `o1`, `o2`.  The `for attempts
:= 1; attempts <= 2` loop is unrolled; the attempt-2 baseline adoption of
reset.go:210-215 is the `result2` re-binding. -/
def processSubscription (opts : Options) (sub : Subscription)
    (o1 o2 : AttemptOutcome) : Result :=
  let result0 : Result :=
    { subscription := sub
      resetResponse := none
      skipped := false
      skipReason := none
      err := none
      beforeCredits := sub.currentCredits
      afterCredits := 0
      beforeResets := sub.resetTimes
      afterResets := 0
      updatedSubscription := none
      attempts := 0 }
  match shouldSkipByThreshold opts sub with
  | some reason => { result0 with skipped := true, skipReason := some reason }
  | none =>
  match shouldSkipByResetTimes opts sub with
  | some reason => { result0 with skipped := true, skipReason := some reason }
  | none =>
    let minRequired := minRequiredResetTimes opts
    let result1 := { result0 with attempts := 1 }
    match o1.resetCall with
    | Except.error msg => { result1 with err := some (RunError.resetCall msg) }
    | Except.ok resp =>
      let result1 := { result1 with resetResponse := some resp }
      match o1.verifyFetch with
      | Except.error msg =>
        { result1 with err := some (RunError.verifyFetch sub.id msg) }
      | Except.ok updated =>
        let result1 :=
          { result1 with
              afterCredits := updated.currentCredits
              afterResets := updated.resetTimes
              updatedSubscription := some updated }
        if updated.currentCredits > result1.beforeCredits ∧
            updated.resetTimes < result1.beforeResets then
          result1
        else if updated.resetTimes < minRequired then
          { result1 with
              err := some (RunError.notEligibleAfterReset updated.resetTimes) }
        else
          let result2 :=
            { result1 with
                beforeCredits := updated.currentCredits
                beforeResets := updated.resetTimes
                attempts := 2 }
          match o2.resetCall with
          | Except.error msg =>
            { result2 with err := some (RunError.resetCall msg) }
          | Except.ok resp2 =>
            let result2 := { result2 with resetResponse := some resp2 }
            match o2.verifyFetch with
            | Except.error msg =>
              { result2 with err := some (RunError.verifyFetch updated.id msg) }
            | Except.ok updated2 =>
              let result2 :=
                { result2 with
                    afterCredits := updated2.currentCredits
                    afterResets := updated2.resetTimes
                    updatedSubscription := some updated2 }
              if updated2.currentCredits > result2.beforeCredits ∧
                  updated2.resetTimes < result2.beforeResets then
                result2
              else if updated2.resetTimes < minRequired then
                { result2 with
                    err := some
                      (RunError.notEligibleAfterReset updated2.resetTimes) }
              else
                { result2 with
                    err := some (RunError.unconfirmedAfterRetry
                      updated2.resetTimes updated2.currentCredits) }

/-- The case-sensitive pay-per-use test inlined in `Client.ResetCredits`
(client.go:211-214): exact string equality, no trimming, no case folding. -/
def resetCreditsIsPAYGO (sub : Subscription) : Bool :=
  decide (sub.subscriptionName = "PAYGO") ||
  decide (sub.plan.subscriptionName = "PAYGO") ||
  decide (sub.plan.planType = "PAYGO") ||
  decide (sub.plan.planType = "PAY_PER_USE")

/-- Decision of the pre-call guard of `Client.ResetCredits`. -/
inductive GuardDecision where
  | reject (sub : Subscription)
  | proceed
deriving DecidableEq, Repr

/-- The pre-call PAYGO guard of `Client.ResetCredits` (client.go:203-224):
re-list the subscriptions; if the listing fails, log and proceed; otherwise
scan for the first entry with the target id (the Go loop breaks on it) and
reject exactly when that entry passes the case-sensitive PAYGO test.  An id
absent from the listing also proceeds. -/
def resetCreditsGuard (listing : Except String (List Subscription))
    (subscriptionID : Int) : GuardDecision :=
  match listing with
  | Except.error _ => GuardDecision.proceed
  | Except.ok subs =>
    match subs.find? (fun sub => decide (sub.id = subscriptionID)) with
    | none => GuardDecision.proceed
    | some sub =>
      if resetCreditsIsPAYGO sub then GuardDecision.reject sub
      else GuardDecision.proceed

/-- `models.ExecutionStatus` (persisted status.json record). -/
structure ExecutionStatus where
  lastCheckTime : Int
  lastFirstResetTime : Option Int
  lastSecondResetTime : Option Int
  firstResetToday : Bool
  secondResetToday : Bool
  lastResetSuccess : Bool
  lastResetMessage : String
  consecutiveFailures : Int
  todayDate : String
  resetTimesBeforeReset : Int
  resetTimesAfterReset : Int
  creditsBeforeReset : ℚ
  creditsAfterReset : ℚ
deriving DecidableEq, Repr

/-- The day-rollover block of `Storage.LoadStatus` (storage.go:101-114),
applied to a successfully loaded status: when the stored date differs from
today, update the date and clear the two ran-today flags and the four
before/after metric fields; otherwise return the status unchanged.
`Storage.LoadStatusByEmail` (storage.go:354-365) runs the same block. -/
def loadStatusRollover (status : ExecutionStatus) (today : String) :
    ExecutionStatus :=
  if status.todayDate ≠ today then
    { status with
        todayDate := today
        firstResetToday := false
        secondResetToday := false
        resetTimesBeforeReset := 0
        resetTimesAfterReset := 0
        creditsBeforeReset := 0
        creditsAfterReset := 0 }
  else status

/-- `scheduler.MinResetInterval = 5 * time.Hour`, in nanoseconds. -/
def minResetInterval : Int := 5 * 3600 * 1000000000

/-- How a trigger run leaves the pre-executor section: an already-ran-today
return, a minimum-interval return, or falling through into runner creation
and the remote calls. -/
inductive TriggerDecision where
  | alreadyRan
  | gapSkip
  | proceed
deriving DecidableEq, Repr

/-- The pre-executor section of `Scheduler.executeReset`
(scheduler.go:204-221), after the lock is held and the status loaded: return
if this trigger already ran today; for `second`, return if the time since
`LastFirstResetTime` is under the minimum interval; otherwise continue into
`reset.NewRunner` / `runner.Execute`. -/
def executeResetGate (status : ExecutionStatus) (resetType : String)
    (now : Int) : TriggerDecision :=
  if resetType = "first" ∧ status.firstResetToday = true then
    TriggerDecision.alreadyRan
  else if resetType = "second" ∧ status.secondResetToday = true then
    TriggerDecision.alreadyRan
  else if resetType = "second" then
    match status.lastFirstResetTime with
    | some t =>
      if now - t < minResetInterval then TriggerDecision.gapSkip
      else TriggerDecision.proceed
    | none => TriggerDecision.proceed
  else TriggerDecision.proceed

/-- The pre-executor section of `MultiScheduler.executeResetForAccount`
(multi_scheduler.go:246-268): return if this trigger already ran today; then
the interval check reads the *same* trigger's own last timestamp
(`LastFirstResetTime` for `first`, `LastSecondResetTime` for `second`) and
returns when the time since it is under the minimum interval; otherwise
continue into the client creation and remote calls. -/
def executeResetForAccountGate (status : ExecutionStatus) (resetType : String)
    (now : Int) : TriggerDecision :=
  if resetType = "first" ∧ status.firstResetToday = true then
    TriggerDecision.alreadyRan
  else if resetType = "second" ∧ status.secondResetToday = true then
    TriggerDecision.alreadyRan
  else
    let lastResetTime :=
      if resetType = "first" then status.lastFirstResetTime
      else status.lastSecondResetTime
    match lastResetTime with
    | some t =>
      if now - t < minResetInterval then TriggerDecision.gapSkip
      else TriggerDecision.proceed
    | none => TriggerDecision.proceed

/-- `models.LockFile` (persisted reset.lock record). -/
structure LockRecord where
  pid : Int
  startTime : Int
  operation : String
  hostname : String
deriving DecidableEq, Repr

/-- Contents of the lock file as `Storage.AcquireLock` observes them: no
file, a file whose JSON fails to load, or a readable record. -/
inductive LockContents where
  | absent
  | unreadable
  | present (lock : LockRecord)
deriving DecidableEq, Repr

/-- The staleness window of `Storage.AcquireLock` and `Storage.IsLocked`:
`10 * time.Minute`, in nanoseconds. -/
def staleLockAge : Int := 10 * 60 * 1000000000

/-- Outcome of `Storage.AcquireLock`: the error (carrying the existing
record the Go message prints) or success, plus the resulting lock file. -/
structure AcquireOutcome where
  err : Option LockRecord
  contents : LockContents
deriving DecidableEq, Repr

/-- `Storage.AcquireLock` (storage.go:131-167): if a readable record exists
and is younger than ten minutes, fail and leave it in place; otherwise (no
file, unreadable file, or a record at least ten minutes old) write a fresh
record for the caller and succeed.  The write itself is the atomic
`saveJSON`, modelled as succeeding. -/
def acquireLock (contents : LockContents) (operation : String)
    (now pid : Int) (host : String) : AcquireOutcome :=
  match contents with
  | LockContents.present l =>
    if now - l.startTime < staleLockAge then
      { err := some l, contents := LockContents.present l }
    else
      { err := none
        contents := LockContents.present
          { pid := pid, startTime := now, operation := operation,
            hostname := host } }
  | _ =>
    { err := none
      contents := LockContents.present
        { pid := pid, startTime := now, operation := operation,
          hostname := host } }

/-- The threshold options and ledger snapshot of the repository's own unit
test `TestShouldSkipByThreshold_SecondResetIgnoresThreshold`
(reset_test.go:35-58): trigger kind `second`, ceiling mode, cap 80, credits
90 of limit 100. -/
def c1opts : Options :=
  { resetType := "second"
    useMaxThreshold := true
    creditThresholdMax := 80
    creditThresholdMin := 0 }

def c1sub : Subscription :=
  { id := 1
    subscriptionName := "FREE"
    currentCredits := 90
    resetTimes := 5
    plan :=
      { subscriptionName := "FREE", planType := "MONTHLY",
        creditLimit := 100 } }

def c1oracle : AttemptOutcome :=
  { resetCall := Except.error "unused", verifyFetch := Except.error "unused" }

/-- C1: the claim says that for trigger kind `second` the executor's
threshold check never skips.  On the code as written it does:
`shouldSkipByThreshold` never consults `ResetType`, so the test input above
(trigger `second`, 90 percent balance against an 80 percent ceiling) is
skipped by the threshold rule, contradicting the claim, the repository's own
unit test `TestShouldSkipByThreshold_SecondResetIgnoresThreshold`, and its
changelog entry about the second reset bypassing the threshold. -/
theorem c1_second_trigger_threshold_still_skips :
    shouldSkipByThreshold c1opts c1sub =
      some (SkipReason.thresholdMax 90 80) ∧
    (processSubscription c1opts c1sub c1oracle c1oracle).skipped = true ∧
    (processSubscription c1opts c1sub c1oracle c1oracle).skipReason =
      some (SkipReason.thresholdMax 90 80) := by
  have h : shouldSkipByThreshold c1opts c1sub =
      some (SkipReason.thresholdMax 90 80) := by
    simp only [shouldSkipByThreshold, c1opts, c1sub]
    norm_num
  refine ⟨h, ?_, ?_⟩ <;> simp [processSubscription, h]

/-- A pay-per-use subscription whose marker is lower-case: matched by the
filter's case-insensitive `isPAYGO`, missed by the executor's case-sensitive
pre-call check. -/
def c2paygoLower : Subscription :=
  { id := 7
    subscriptionName := "paygo"
    currentCredits := 1
    resetTimes := 3
    plan :=
      { subscriptionName := "basic", planType := "MONTHLY",
        creditLimit := 100 } }

/-- C2 counterexample: a subscription named `"paygo"` matches the
pay-per-use marker case-insensitively (so the claim covers it), yet the
pre-call guard of `ResetCredits` — whose comparisons are exact, untrimmed
string equality — lets it proceed, so the remote reset would be issued. -/
theorem c2_lowercase_paygo_passes_precall_guard :
    isPAYGO c2paygoLower = true ∧
    resetCreditsGuard (Except.ok [c2paygoLower]) 7 =
      GuardDecision.proceed := by decide

/-- C2 (amended): every subscription matching the pay-per-use marker
case-insensitively is excluded by `FilterSubscriptions` under every policy;
the pre-call guard of `ResetCredits` re-rejects only when the re-listed
entry for the id matches the markers by exact, case-sensitive equality. -/
theorem c2_paygo_filter_always_excludes (subs : List Subscription)
    (f : ResetFilter) (sub : Subscription) (listing : List Subscription)
    (id : Int) (s : Subscription) (hp : isPAYGO sub = true) :
    sub ∉ FilterSubscriptions subs f ∧
    (listing.find? (fun x => decide (x.id = id)) = some s →
      resetCreditsIsPAYGO s = true →
      resetCreditsGuard (Except.ok listing) id = GuardDecision.reject s) := by
  constructor
  · intro hmem
    cases subs with
    | nil => simp [FilterSubscriptions] at hmem
    | cons a l =>
      simp only [FilterSubscriptions] at hmem
      have hkeep := (List.mem_filter.mp hmem).2
      simp [keepSubscription, hp] at hkeep
  · intro hfind hpg
    simp [resetCreditsGuard, hfind, hpg]

/-- An exact-case PAYGO subscription, rejected by the pre-call guard. -/
def c2paygoExact : Subscription :=
  { id := 9
    subscriptionName := "PAYGO"
    currentCredits := 2
    resetTimes := 1
    plan :=
      { subscriptionName := "PAYGO", planType := "PAY_PER_USE",
        creditLimit := 0 } }

theorem c2_paygo_filter_always_excludes_witness :
    c2paygoLower ∉ FilterSubscriptions [c2paygoLower]
      { targetPlans := [], requireMonthly := true } ∧
    resetCreditsGuard (Except.ok [c2paygoExact]) 9 =
      GuardDecision.reject c2paygoExact :=
  ⟨(c2_paygo_filter_always_excludes [c2paygoLower]
      { targetPlans := [], requireMonthly := true } c2paygoLower
      [c2paygoExact] 9 c2paygoExact (by decide)).1,
   (c2_paygo_filter_always_excludes [c2paygoLower]
      { targetPlans := [], requireMonthly := true } c2paygoLower
      [c2paygoExact] 9 c2paygoExact (by decide)).2 (by decide) (by decide)⟩

/-- C3: retry convergence.  When the pre-flight checks pass, attempt 1's
remote reset acknowledges but the re-fetched ledger shows no change (credits
not increased or reset-count not decreased) while the re-fetched reset-count
is still at or above the trigger minimum, and attempt 2's re-fetch shows
credits increased and reset-count decreased versus the attempt-2 baseline,
`processSubscription` returns a non-skipped, non-error result with two
attempts whose before metrics are the attempt-2 baseline (the state
re-fetched after attempt 1) and whose after metrics are the final re-fetched
state. -/
theorem c3_retry_convergence (opts : Options) (sub : Subscription)
    (r1 r2 : ResetResponse) (u1 u2 : Subscription)
    (hth : shouldSkipByThreshold opts sub = none)
    (hrt : shouldSkipByResetTimes opts sub = none)
    (hmiss : ¬(u1.currentCredits > sub.currentCredits ∧
      u1.resetTimes < sub.resetTimes))
    (helig : minRequiredResetTimes opts ≤ u1.resetTimes)
    (hinc : u2.currentCredits > u1.currentCredits)
    (hdec : u2.resetTimes < u1.resetTimes) :
    processSubscription opts sub
        { resetCall := Except.ok r1, verifyFetch := Except.ok u1 }
        { resetCall := Except.ok r2, verifyFetch := Except.ok u2 } =
      { subscription := sub
        resetResponse := some r2
        skipped := false
        skipReason := none
        err := none
        beforeCredits := u1.currentCredits
        afterCredits := u2.currentCredits
        beforeResets := u1.resetTimes
        afterResets := u2.resetTimes
        updatedSubscription := some u2
        attempts := 2 } := by
  simp only [processSubscription, hth, hrt]
  rw [if_neg hmiss, if_neg (not_lt.mpr helig), if_pos (And.intro hinc hdec)]

/-- Concrete inputs for the retry-convergence scenario: 5 of 20 credits
(25 percent, under the 83 percent ceiling), three resets remaining; the
attempt-1 re-fetch shows the unchanged ledger, the attempt-2 re-fetch shows
credits 20 and two resets remaining. -/
def c3opts : Options :=
  { resetType := "first"
    useMaxThreshold := true
    creditThresholdMax := 83
    creditThresholdMin := 0 }

def c3sub : Subscription :=
  { id := 11
    subscriptionName := "FREE"
    currentCredits := 5
    resetTimes := 3
    plan :=
      { subscriptionName := "FREE", planType := "MONTHLY",
        creditLimit := 20 } }

def c3unchanged : Subscription :=
  { id := 11
    subscriptionName := "FREE"
    currentCredits := 5
    resetTimes := 3
    plan :=
      { subscriptionName := "FREE", planType := "MONTHLY",
        creditLimit := 20 } }

def c3final : Subscription :=
  { id := 11
    subscriptionName := "FREE"
    currentCredits := 20
    resetTimes := 2
    plan :=
      { subscriptionName := "FREE", planType := "MONTHLY",
        creditLimit := 20 } }

def c3ack1 : ResetResponse := { success := true, message := "reset ok 1" }

def c3ack2 : ResetResponse := { success := true, message := "reset ok 2" }

theorem c3_retry_convergence_witness :
    processSubscription c3opts c3sub
        { resetCall := Except.ok c3ack1, verifyFetch := Except.ok c3unchanged }
        { resetCall := Except.ok c3ack2, verifyFetch := Except.ok c3final } =
      { subscription := c3sub
        resetResponse := some c3ack2
        skipped := false
        skipReason := none
        err := none
        beforeCredits := c3unchanged.currentCredits
        afterCredits := c3final.currentCredits
        beforeResets := c3unchanged.resetTimes
        afterResets := c3final.resetTimes
        updatedSubscription := some c3final
        attempts := 2 } :=
  c3_retry_convergence c3opts c3sub c3ack1 c3ack2 c3unchanged c3final
    (by simp only [shouldSkipByThreshold, c3opts, c3sub]; norm_num)
    (by decide) (by decide) (by decide) (by decide) (by decide)

/-- C4: a transport/remote error on attempt 1 — from the reset call or from
the verification re-fetch — makes `processSubscription` stop at once with
`Err` set and one attempt, consulting the attempt-2 oracle not at all (the
result is the same for any attempt-2 behaviour, so no second remote call is
made); a verification mismatch with the re-fetched count still eligible, by
contrast, moves on to attempt 2. -/
theorem c4_transport_error_no_retry (opts : Options) (sub : Subscription)
    (msg : String) (f : Except String Subscription) (r1 : ResetResponse)
    (u1 : Subscription) (o2 o2' : AttemptOutcome)
    (hth : shouldSkipByThreshold opts sub = none)
    (hrt : shouldSkipByResetTimes opts sub = none) :
    ((processSubscription opts sub
        { resetCall := Except.error msg, verifyFetch := f } o2).err =
          some (RunError.resetCall msg) ∧
      (processSubscription opts sub
        { resetCall := Except.error msg, verifyFetch := f } o2).attempts = 1 ∧
      processSubscription opts sub
          { resetCall := Except.error msg, verifyFetch := f } o2 =
        processSubscription opts sub
          { resetCall := Except.error msg, verifyFetch := f } o2') ∧
    ((processSubscription opts sub
        { resetCall := Except.ok r1, verifyFetch := Except.error msg } o2).err =
          some (RunError.verifyFetch sub.id msg) ∧
      (processSubscription opts sub
        { resetCall := Except.ok r1, verifyFetch := Except.error msg }
          o2).attempts = 1 ∧
      processSubscription opts sub
          { resetCall := Except.ok r1, verifyFetch := Except.error msg } o2 =
        processSubscription opts sub
          { resetCall := Except.ok r1, verifyFetch := Except.error msg } o2') ∧
    (¬(u1.currentCredits > sub.currentCredits ∧
        u1.resetTimes < sub.resetTimes) →
      minRequiredResetTimes opts ≤ u1.resetTimes →
      (processSubscription opts sub
        { resetCall := Except.ok r1, verifyFetch := Except.ok u1 }
          o2).attempts = 2) := by
  refine ⟨⟨?_, ?_, ?_⟩, ⟨?_, ?_, ?_⟩, ?_⟩
  · simp [processSubscription, hth, hrt]
  · simp [processSubscription, hth, hrt]
  · simp [processSubscription, hth, hrt]
  · simp [processSubscription, hth, hrt]
  · simp [processSubscription, hth, hrt]
  · simp [processSubscription, hth, hrt]
  · intro hmiss helig
    simp only [processSubscription, hth, hrt]
    rw [if_neg hmiss, if_neg (not_lt.mpr helig)]
    rcases o2 with ⟨rc, vf⟩
    cases rc with
    | error m => rfl
    | ok resp2 =>
      cases vf with
      | error m => rfl
      | ok u2 =>
        dsimp only
        split
        · rfl
        · split <;> rfl

def c4opts : Options :=
  { resetType := "first"
    useMaxThreshold := true
    creditThresholdMax := 83
    creditThresholdMin := 0 }

def c4sub : Subscription :=
  { id := 21
    subscriptionName := "PRO"
    currentCredits := 5
    resetTimes := 3
    plan :=
      { subscriptionName := "PRO", planType := "MONTHLY",
        creditLimit := 20 } }

def c4ack : ResetResponse := { success := true, message := "acknowledged" }

def c4oracle2 : AttemptOutcome :=
  { resetCall := Except.ok { success := true, message := "never used" }
    verifyFetch := Except.error "never used" }

def c4oracle2alt : AttemptOutcome :=
  { resetCall := Except.error "also never used"
    verifyFetch := Except.error "also never used" }

theorem c4_transport_error_no_retry_witness :
    ((processSubscription c4opts c4sub
        { resetCall := Except.error "dial timeout",
          verifyFetch := Except.error "unreached" } c4oracle2).err =
          some (RunError.resetCall "dial timeout") ∧
      (processSubscription c4opts c4sub
        { resetCall := Except.error "dial timeout",
          verifyFetch := Except.error "unreached" } c4oracle2).attempts = 1 ∧
      processSubscription c4opts c4sub
          { resetCall := Except.error "dial timeout",
            verifyFetch := Except.error "unreached" } c4oracle2 =
        processSubscription c4opts c4sub
          { resetCall := Except.error "dial timeout",
            verifyFetch := Except.error "unreached" } c4oracle2alt) ∧
    ((processSubscription c4opts c4sub
        { resetCall := Except.ok c4ack,
          verifyFetch := Except.error "dial timeout" } c4oracle2).err =
          some (RunError.verifyFetch c4sub.id "dial timeout") ∧
      (processSubscription c4opts c4sub
        { resetCall := Except.ok c4ack,
          verifyFetch := Except.error "dial timeout" } c4oracle2).attempts =
        1 ∧
      processSubscription c4opts c4sub
          { resetCall := Except.ok c4ack,
            verifyFetch := Except.error "dial timeout" } c4oracle2 =
        processSubscription c4opts c4sub
          { resetCall := Except.ok c4ack,
            verifyFetch := Except.error "dial timeout" } c4oracle2alt) ∧
    (processSubscription c4opts c4sub
      { resetCall := Except.ok c4ack, verifyFetch := Except.ok c4sub }
        c4oracle2).attempts = 2 :=
  have h := c4_transport_error_no_retry c4opts c4sub "dial timeout"
    (Except.error "unreached") c4ack c4sub c4oracle2 c4oracle2alt
    (by simp only [shouldSkipByThreshold, c4opts, c4sub]; norm_num)
    (by decide)
  ⟨h.1, h.2.1, h.2.2 (by decide) (by decide)⟩

/-- A subscription below the reset-count minimum that also trips the
ceiling threshold: ceiling mode 80, credits 90 of 100, one reset left under
trigger `first` (minimum 2). -/
def c5opts : Options :=
  { resetType := "first"
    useMaxThreshold := true
    creditThresholdMax := 80
    creditThresholdMin := 0 }

def c5sub : Subscription :=
  { id := 41
    subscriptionName := "FREE"
    currentCredits := 90
    resetTimes := 1
    plan :=
      { subscriptionName := "FREE", planType := "MONTHLY",
        creditLimit := 100 } }

def c5oracle : AttemptOutcome :=
  { resetCall := Except.error "unused", verifyFetch := Except.error "unused" }

/-- C5 counterexample: the claim promises a reset-count skip reason for
every subscription below the per-trigger minimum, but the threshold check
runs first in `processSubscription`, so this below-minimum subscription is
skipped with the threshold reason instead. -/
theorem c5_threshold_preempts_reset_count_reason :
    c5sub.resetTimes < minRequiredResetTimes c5opts ∧
    (processSubscription c5opts c5sub c5oracle c5oracle).skipped = true ∧
    (processSubscription c5opts c5sub c5oracle c5oracle).skipReason =
      some (SkipReason.thresholdMax 90 80) ∧
    (processSubscription c5opts c5sub c5oracle c5oracle).skipReason ≠
      some (SkipReason.insufficientResetTimes
        (minRequiredResetTimes c5opts)) := by
  have h : shouldSkipByThreshold c5opts c5sub =
      some (SkipReason.thresholdMax 90 80) := by
    simp only [shouldSkipByThreshold, c5opts, c5sub]
    norm_num
  refine ⟨by decide, ?_, ?_, ?_⟩ <;> simp [processSubscription, h]

/-- C5 (amended): the per-trigger minimum is 1 for `second` and 2 for every
other trigger kind (`first`, empty, unknown); a subscription below the
minimum always yields a skipped result and consults no remote oracle, and
the skip reason is the reset-count reason whenever the threshold check has
not already skipped the subscription. -/
theorem c5_reset_count_minimum (opts : Options) (sub : Subscription)
    (o1 o2 o1' o2' : AttemptOutcome)
    (h : sub.resetTimes < minRequiredResetTimes opts) :
    (eqFold opts.resetType "second" = true →
      minRequiredResetTimes opts = 1) ∧
    (eqFold opts.resetType "second" = false →
      minRequiredResetTimes opts = 2) ∧
    (processSubscription opts sub o1 o2).skipped = true ∧
    processSubscription opts sub o1 o2 =
      processSubscription opts sub o1' o2' ∧
    (shouldSkipByThreshold opts sub = none →
      (processSubscription opts sub o1 o2).skipReason =
        some (SkipReason.insufficientResetTimes
          (minRequiredResetTimes opts))) := by
  have hrt : shouldSkipByResetTimes opts sub =
      some (SkipReason.insufficientResetTimes (minRequiredResetTimes opts)) := by
    simp [shouldSkipByResetTimes, h]
  refine ⟨?_, ?_, ?_, ?_, ?_⟩
  · intro hf
    simp [minRequiredResetTimes, hf]
  · intro hf
    simp [minRequiredResetTimes, hf]
  · cases hth : shouldSkipByThreshold opts sub <;>
      simp [processSubscription, hth, hrt]
  · cases hth : shouldSkipByThreshold opts sub <;>
      simp [processSubscription, hth, hrt]
  · intro h0
    simp [processSubscription, h0, hrt]

def c5wopts : Options :=
  { resetType := "second"
    useMaxThreshold := true
    creditThresholdMax := 80
    creditThresholdMin := 0 }

def c5wsub : Subscription :=
  { id := 43
    subscriptionName := "FREE"
    currentCredits := 0
    resetTimes := 0
    plan :=
      { subscriptionName := "FREE", planType := "MONTHLY",
        creditLimit := 100 } }

def c5woracle : AttemptOutcome :=
  { resetCall := Except.ok { success := true, message := "unused" }
    verifyFetch := Except.error "unused" }

theorem c5_reset_count_minimum_witness :
    minRequiredResetTimes c5wopts = 1 ∧
    minRequiredResetTimes c5opts = 2 ∧
    (processSubscription c5wopts c5wsub c5woracle c5woracle).skipped = true ∧
    processSubscription c5wopts c5wsub c5woracle c5woracle =
      processSubscription c5wopts c5wsub c5oracle c5oracle ∧
    (processSubscription c5wopts c5wsub c5woracle c5woracle).skipReason =
      some (SkipReason.insufficientResetTimes
        (minRequiredResetTimes c5wopts)) :=
  have h := c5_reset_count_minimum c5wopts c5wsub c5woracle c5woracle
    c5oracle c5oracle (by decide)
  have h2 := c5_reset_count_minimum c5opts c5wsub c5woracle c5woracle
    c5oracle c5oracle (by decide)
  ⟨h.1 (by decide), h2.2.1 (by decide), h.2.2.1, h.2.2.2.1,
   h.2.2.2.2 (by simp only [shouldSkipByThreshold, c5wopts, c5wsub]
                 norm_num)⟩

/-- C6: day rollover on load.  When the stored date differs from today,
`LoadStatus` returns the status with both ran-today flags cleared and the
date updated, while the non-day-scoped fields — the consecutive-failure
count, the last outcome flag and the last message — keep exactly their
stored values. -/
theorem c6_day_rollover_frame (s : ExecutionStatus) (today : String)
    (h : s.todayDate ≠ today) :
    (loadStatusRollover s today).firstResetToday = false ∧
    (loadStatusRollover s today).secondResetToday = false ∧
    (loadStatusRollover s today).todayDate = today ∧
    (loadStatusRollover s today).consecutiveFailures =
      s.consecutiveFailures ∧
    (loadStatusRollover s today).lastResetSuccess = s.lastResetSuccess ∧
    (loadStatusRollover s today).lastResetMessage = s.lastResetMessage := by
  simp [loadStatusRollover, h]

/-- The spec's day-rollover scenario: stored date 2024-01-01, loaded on
2024-01-02, with non-day-scoped fields populated. -/
def c6status : ExecutionStatus :=
  { lastCheckTime := 500
    lastFirstResetTime := some 100
    lastSecondResetTime := some 200
    firstResetToday := true
    secondResetToday := true
    lastResetSuccess := false
    lastResetMessage := "last failure"
    consecutiveFailures := 4
    todayDate := "2024-01-01"
    resetTimesBeforeReset := 3
    resetTimesAfterReset := 2
    creditsBeforeReset := 5
    creditsAfterReset := 20 }

theorem c6_day_rollover_frame_witness :
    (loadStatusRollover c6status "2024-01-02").firstResetToday = false ∧
    (loadStatusRollover c6status "2024-01-02").secondResetToday = false ∧
    (loadStatusRollover c6status "2024-01-02").todayDate = "2024-01-02" ∧
    (loadStatusRollover c6status "2024-01-02").consecutiveFailures =
      c6status.consecutiveFailures ∧
    (loadStatusRollover c6status "2024-01-02").lastResetSuccess =
      c6status.lastResetSuccess ∧
    (loadStatusRollover c6status "2024-01-02").lastResetMessage =
      c6status.lastResetMessage :=
  c6_day_rollover_frame c6status "2024-01-02" (by decide)

/-- A stored status from an earlier day carrying both per-trigger
timestamps. -/
def c7status : ExecutionStatus :=
  { lastCheckTime := 500
    lastFirstResetTime := some 100
    lastSecondResetTime := some 200
    firstResetToday := true
    secondResetToday := true
    lastResetSuccess := true
    lastResetMessage := "ok"
    consecutiveFailures := 0
    todayDate := "2024-01-01"
    resetTimesBeforeReset := 3
    resetTimesAfterReset := 2
    creditsBeforeReset := 5
    creditsAfterReset := 20 }

/-- C7 counterexample: the claim says day rollover clears
`last_first_reset_time` and `last_second_reset_time` along with the flags
and metrics; the rollover block of `LoadStatus` never touches either
timestamp, so they keep their stored values across the day change. -/
theorem c7_rollover_keeps_trigger_timestamps :
    c7status.todayDate ≠ "2024-01-02" ∧
    (loadStatusRollover c7status "2024-01-02").firstResetToday = false ∧
    (loadStatusRollover c7status "2024-01-02").lastFirstResetTime =
      some 100 ∧
    (loadStatusRollover c7status "2024-01-02").lastSecondResetTime =
      some 200 := by decide

/-- C7 (amended): day rollover clears the two ran-today flags and the four
before/after metric fields and updates the date, but the per-trigger
timestamps `last_first_reset_time` and `last_second_reset_time` are left at
their stored values. -/
theorem c7_day_rollover_clears (s : ExecutionStatus) (today : String)
    (h : s.todayDate ≠ today) :
    (loadStatusRollover s today).firstResetToday = false ∧
    (loadStatusRollover s today).secondResetToday = false ∧
    (loadStatusRollover s today).resetTimesBeforeReset = 0 ∧
    (loadStatusRollover s today).resetTimesAfterReset = 0 ∧
    (loadStatusRollover s today).creditsBeforeReset = 0 ∧
    (loadStatusRollover s today).creditsAfterReset = 0 ∧
    (loadStatusRollover s today).todayDate = today ∧
    (loadStatusRollover s today).lastFirstResetTime =
      s.lastFirstResetTime ∧
    (loadStatusRollover s today).lastSecondResetTime =
      s.lastSecondResetTime := by
  simp [loadStatusRollover, h]

theorem c7_day_rollover_clears_witness :
    (loadStatusRollover c7status "2024-01-03").firstResetToday = false ∧
    (loadStatusRollover c7status "2024-01-03").secondResetToday = false ∧
    (loadStatusRollover c7status "2024-01-03").resetTimesBeforeReset = 0 ∧
    (loadStatusRollover c7status "2024-01-03").resetTimesAfterReset = 0 ∧
    (loadStatusRollover c7status "2024-01-03").creditsBeforeReset = 0 ∧
    (loadStatusRollover c7status "2024-01-03").creditsAfterReset = 0 ∧
    (loadStatusRollover c7status "2024-01-03").todayDate = "2024-01-03" ∧
    (loadStatusRollover c7status "2024-01-03").lastFirstResetTime =
      c7status.lastFirstResetTime ∧
    (loadStatusRollover c7status "2024-01-03").lastSecondResetTime =
      c7status.lastSecondResetTime :=
  c7_day_rollover_clears c7status "2024-01-03" (by decide)

/-- A status one hour after its first reset: second trigger not yet run,
first-trigger timestamp recent, no second-trigger timestamp.  Times are in
nanoseconds: `now` is ten hours, the first reset was at nine hours. -/
def c8status : ExecutionStatus :=
  { lastCheckTime := 36000000000000
    lastFirstResetTime := some 32400000000000
    lastSecondResetTime := none
    firstResetToday := true
    secondResetToday := false
    lastResetSuccess := true
    lastResetMessage := "ok"
    consecutiveFailures := 0
    todayDate := "2024-01-01"
    resetTimesBeforeReset := 3
    resetTimesAfterReset := 2
    creditsBeforeReset := 5
    creditsAfterReset := 20 }

/-- C8 counterexample: one hour after the first reset (well under the
five-hour minimum gap), the single-account gate skips the `second` trigger,
but the multi-account gate — which compares against the second trigger's own
last timestamp, not the first's — proceeds into the client creation and
remote calls, contradicting the claim for the multi-account path. -/
theorem c8_multi_gate_ignores_first_timestamp :
    c8status.lastFirstResetTime = some 32400000000000 ∧
    (36000000000000 : Int) - 32400000000000 < minResetInterval ∧
    executeResetGate c8status "second" 36000000000000 =
      TriggerDecision.gapSkip ∧
    executeResetForAccountGate c8status "second" 36000000000000 =
      TriggerDecision.proceed := by decide

/-- C8 (amended): when the loaded status holds a first-trigger timestamp
less than the minimum gap before now, the single-account `executeReset`
never reaches the executor for `second` (it returns at the already-ran or
the gap check, setting nothing); the multi-account
`executeResetForAccount`, however, gates `second` on the second trigger's
own last timestamp: with no stored second timestamp it proceeds despite the
recent first reset, and it gap-skips exactly when the second timestamp
itself is within the gap. -/
theorem c8_second_gap_gate (status : ExecutionStatus) (now t : Int)
    (hts : status.lastFirstResetTime = some t)
    (hgap : now - t < minResetInterval) :
    executeResetGate status "second" now ≠ TriggerDecision.proceed ∧
    executeResetForAccountGate
        { status with secondResetToday := false, lastSecondResetTime := none }
        "second" now = TriggerDecision.proceed ∧
    executeResetForAccountGate
        { status with
            secondResetToday := false
            lastSecondResetTime := some t } "second" now =
      TriggerDecision.gapSkip := by
  refine ⟨?_, ?_, ?_⟩
  · cases h2 : status.secondResetToday <;>
      simp [executeResetGate, h2, hts, hgap]
  · simp [executeResetForAccountGate]
  · simp [executeResetForAccountGate, hgap]

theorem c8_second_gap_gate_witness :
    executeResetGate c8status "second" 36000000000000 ≠
      TriggerDecision.proceed ∧
    executeResetForAccountGate
        { c8status with
            secondResetToday := false
            lastSecondResetTime := none } "second" 36000000000000 =
      TriggerDecision.proceed ∧
    executeResetForAccountGate
        { c8status with
            secondResetToday := false
            lastSecondResetTime := some 32400000000000 } "second"
        36000000000000 = TriggerDecision.gapSkip :=
  c8_second_gap_gate c8status 36000000000000 32400000000000 (by decide)
    (by decide)

/-- C9: lock acquisition.  A readable record younger than ten minutes makes
`AcquireLock` fail and leaves the record untouched; with no record or a
record at least ten minutes old it succeeds and writes a fresh record for
the caller; hence of two sequentialized acquisitions within the staleness
window at most one succeeds — if the first succeeded, the second always
fails. -/
theorem c9_acquire_lock_exclusion (l : LockRecord) (c : LockContents)
    (op host host2 : String) (now pid now2 pid2 : Int) :
    (now - l.startTime < staleLockAge →
      acquireLock (LockContents.present l) op now pid host =
        { err := some l, contents := LockContents.present l }) ∧
    acquireLock LockContents.absent op now pid host =
      { err := none
        contents := LockContents.present
          { pid := pid, startTime := now, operation := op,
            hostname := host } } ∧
    (staleLockAge ≤ now - l.startTime →
      acquireLock (LockContents.present l) op now pid host =
        { err := none
          contents := LockContents.present
            { pid := pid, startTime := now, operation := op,
              hostname := host } }) ∧
    (now2 - now < staleLockAge →
      (acquireLock c op now pid host).err = none →
      (acquireLock (acquireLock c op now pid host).contents op now2 pid2
        host2).err ≠ none) := by
  refine ⟨?_, ?_, ?_, ?_⟩
  · intro hfresh
    simp [acquireLock, hfresh]
  · rfl
  · intro hstale
    simp [acquireLock, not_lt.mpr hstale]
  · intro hwin hok
    cases c with
    | absent =>
      simp [acquireLock, hwin]
    | unreadable =>
      simp [acquireLock, hwin]
    | present l2 =>
      by_cases hfl : now - l2.startTime < staleLockAge
      · simp [acquireLock, hfl] at hok
      · simp [acquireLock, hfl, hwin]

def c9lock : LockRecord :=
  { pid := 77, startTime := 0, operation := "first_reset",
    hostname := "host-a" }

theorem c9_acquire_lock_exclusion_witness :
    acquireLock (LockContents.present c9lock) "first_reset" 60000000000 88
        "host-b" =
      { err := some c9lock, contents := LockContents.present c9lock } ∧
    acquireLock LockContents.absent "first_reset" 60000000000 88 "host-b" =
      { err := none
        contents := LockContents.present
          { pid := 88, startTime := 60000000000, operation := "first_reset",
            hostname := "host-b" } } ∧
    acquireLock (LockContents.present c9lock) "first_reset" 700000000000 88
        "host-b" =
      { err := none
        contents := LockContents.present
          { pid := 88, startTime := 700000000000,
            operation := "first_reset", hostname := "host-b" } } ∧
    (acquireLock
      (acquireLock LockContents.absent "first_reset" 60000000000 88
        "host-b").contents "first_reset" 120000000000 99 "host-c").err ≠
      none :=
  have h := c9_acquire_lock_exclusion c9lock LockContents.absent
    "first_reset" "host-b" "host-c" 60000000000 88 120000000000 99
  have hstale := c9_acquire_lock_exclusion c9lock LockContents.absent
    "first_reset" "host-b" "host-c" 700000000000 88 720000000000 99
  ⟨h.1 (by decide), h.2.1, hstale.2.2.1 (by decide),
   h.2.2.2 (by decide) (by decide)⟩

/-- C10: the pre-call PAYGO guard of `ResetCredits` is best-effort.  A
failed verification listing proceeds; a listing in which the target id does
not appear proceeds; a resolved entry that fails the (case-sensitive)
pay-per-use test proceeds; the guard rejects only when the listing succeeds
and the id resolves to an entry passing the pay-per-use test. -/
theorem c10_guard_best_effort (e : String) (subs : List Subscription)
    (id : Int) (s : Subscription) :
    resetCreditsGuard (Except.error e) id = GuardDecision.proceed ∧
    (subs.find? (fun x => decide (x.id = id)) = none →
      resetCreditsGuard (Except.ok subs) id = GuardDecision.proceed) ∧
    (subs.find? (fun x => decide (x.id = id)) = some s →
      resetCreditsIsPAYGO s = false →
      resetCreditsGuard (Except.ok subs) id = GuardDecision.proceed) ∧
    (resetCreditsGuard (Except.ok subs) id = GuardDecision.reject s →
      subs.find? (fun x => decide (x.id = id)) = some s ∧
      resetCreditsIsPAYGO s = true) := by
  refine ⟨rfl, ?_, ?_, ?_⟩
  · intro hnone
    simp [resetCreditsGuard, hnone]
  · intro hfind hno
    simp [resetCreditsGuard, hfind, hno]
  · intro hrej
    simp only [resetCreditsGuard] at hrej
    cases hfind : subs.find? (fun x => decide (x.id = id)) with
    | none => rw [hfind] at hrej; exact absurd hrej (by simp)
    | some s2 =>
      rw [hfind] at hrej
      dsimp only at hrej
      by_cases hpg : resetCreditsIsPAYGO s2 = true
      · rw [if_pos hpg] at hrej
        injection hrej with hss
        subst hss
        exact ⟨rfl, hpg⟩
      · rw [if_neg hpg] at hrej
        exact absurd hrej (by simp)

def c10normal : Subscription :=
  { id := 55
    subscriptionName := "PRO"
    currentCredits := 3
    resetTimes := 2
    plan :=
      { subscriptionName := "PRO", planType := "MONTHLY",
        creditLimit := 20 } }

theorem c10_guard_best_effort_witness :
    resetCreditsGuard (Except.error "listing failed") 55 =
      GuardDecision.proceed ∧
    resetCreditsGuard (Except.ok ([] : List Subscription)) 55 =
      GuardDecision.proceed ∧
    resetCreditsGuard (Except.ok [c10normal]) 55 =
      GuardDecision.proceed :=
  have h1 := c10_guard_best_effort "listing failed"
    ([] : List Subscription) 55 c10normal
  have h2 := c10_guard_best_effort "listing failed" [c10normal] 55 c10normal
  ⟨h1.1, h1.2.1 (by decide), h2.2.2.1 (by decide) (by decide)⟩
